import Mathlib

/-!
Verification of the zenml repository slice: teams endpoints, the GCP
integration flavor declarations, the Great Expectations data validator
config, and the whylogs step decorator. Python code is shallowly embedded
as pure Lean functions; in-place object mutation is modelled as an explicit
heap update, fallible code returns Except.
-/

namespace Whylogs

/-- The WhylogsContext object built by the wrapper: it references the step
context object it was attached to (by id) and carries the decorator's
project, pipeline and tags parameters
(src/zenml/integrations/whylogs/whylogs_step_decorator.py lines 167-169). -/
structure WhylogsContext where
  stepContextId : Nat
  project : Option String
  pipeline : Option String
  tags : Option (List (String × String))
deriving DecidableEq, Repr

/-- An argument of a step entrypoint call: either a reference to a
StepContext object (identified by its heap id) or any other value. -/
inductive Arg (α : Type) where
  | ctxRef (id : Nat)
  | other (v : α)
deriving DecidableEq, Repr

/-- The mutable state of all StepContext objects: maps a StepContext id to
the current value of its whylogs field (None when unset). The Python code
mutates the object in place via arg.__dict__; here that is an explicit
heap shared by caller and callee. -/
def Heap : Type := Nat → Option WhylogsContext

/-- A step entrypoint: reads the StepContext heap and receives positional
and keyword arguments. -/
def EntryFn (α ρ : Type) : Type :=
  Heap → List (Arg α) → List (String × Arg α) → ρ

/-- The iteration order of the wrapper loop: args + tuple(kwargs.values())
(line 165 of the decorator). -/
def scannedArgs (args : List (Arg α)) (kwargs : List (String × Arg α)) :
    List (Arg α) :=
  args ++ kwargs.map Prod.snd

/-- Id of the first argument that is a StepContext instance, in scan order;
the loop breaks at the first match (line 170). -/
def firstCtxId : List (Arg α) → Option Nat
  | [] => none
  | Arg.ctxRef i :: _ => some i
  | Arg.other _ :: rest => firstCtxId rest

/-- The heap mutation performed by the wrapper before calling func: the
first StepContext found in scan order gets its whylogs field set to a
WhylogsContext referencing it and carrying the decorator parameters
(lines 165-170); if no StepContext is among the arguments, the heap is
untouched. -/
def attachCtx (project pipeline : Option String)
    (tags : Option (List (String × String))) (h : Heap)
    (scanned : List (Arg α)) : Heap :=
  match firstCtxId scanned with
  | none => h
  | some i => fun j => if j = i then some ⟨i, project, pipeline, tags⟩ else h j

/-- The wrapper installed by whylogs_entrypoint (lines 161-173): mutate the
first StepContext argument, then call func on the very same arguments and
return its result unchanged. -/
def wrapper (project pipeline : Option String)
    (tags : Option (List (String × String))) (func : EntryFn α ρ) :
    EntryFn α ρ :=
  fun h args kwargs =>
    func (attachCtx project pipeline tags h (scannedArgs args kwargs))
      args kwargs

/-- whylogs_entrypoint (lines 125-175): a decorator that replaces a step
entrypoint by its wrapped version. -/
def whylogs_entrypoint (project pipeline : Option String)
    (tags : Option (List (String × String))) :
    EntryFn α ρ → EntryFn α ρ :=
  fun func => wrapper project pipeline tags func

/-- A step class as the decorator sees it: its inner entrypoint function,
whether it was created by the functional API, and whether the entrypoint
attribute currently holds a staticmethod. -/
structure StepClass (α ρ : Type) where
  entrypoint : EntryFn α ρ
  createdByFunctionalApi : Bool
  entrypointIsStatic : Bool

/-- inner_decorator inside enable_whylogs (lines 108-117): replace the
step class entrypoint by the whylogs-wrapped one, re-wrapping it as a
staticmethod when the step was created by the functional API. -/
def enable_whylogs_inner (project pipeline : Option String)
    (tags : Option (List (String × String))) (s : StepClass α ρ) :
    StepClass α ρ :=
  { s with
    entrypoint := whylogs_entrypoint project pipeline tags s.entrypoint
    entrypointIsStatic :=
      if s.createdByFunctionalApi then true else s.entrypointIsStatic }

/-- enable_whylogs (lines 58-122): when called directly on a step class it
applies inner_decorator to it; when called with no step (parameters only)
it returns inner_decorator itself. -/
def enable_whylogs (stepArg : Option (StepClass α ρ))
    (project pipeline : Option String)
    (tags : Option (List (String × String))) :
    Sum (StepClass α ρ) (StepClass α ρ → StepClass α ρ) :=
  match stepArg with
  | none => Sum.inr (enable_whylogs_inner project pipeline tags)
  | some s => Sum.inl (enable_whylogs_inner project pipeline tags s)

/-- Apply the result of enable_whylogs to a step class: a directly
transformed class is taken as is, a returned decorator is applied. -/
def decoratorResultApply (r : Sum (StepClass α ρ) (StepClass α ρ → StepClass α ρ))
    (s : StepClass α ρ) : StepClass α ρ :=
  match r with
  | Sum.inl t => t
  | Sum.inr d => d s

end Whylogs

namespace GreatExpectations

/-- The validator on the context_root_dir field of
GreatExpectationsDataValidatorConfig
(great_expectations_data_validator_flavor.py lines 58-80). The file system
is abstracted by the predicate fexists (fileio.exists) and path
normalisation by abspath (os.path.abspath). A truthy (non-empty, non-None)
value is replaced by its absolute form, and a ValueError is raised when
that absolute path does not exist; a falsy value is returned unchanged
with no check. -/
def ensure_valid_context_root_dir (fexists : String → Bool)
    (abspath : String → String) :
    Option String → Except String (Option String)
  | none => Except.ok none
  | some p =>
    if p = "" then Except.ok (some p)
    else
      if fexists (abspath p) then Except.ok (some (abspath p))
      else
        Except.error
          ("The Great Expectations context_root_dir value does not point to an existing data context path: "
            ++ abspath p)

/-- The context_config value inside the raw values dict handed to the
pre-root-validator: either already a dict (of some parsed representation δ)
or still a string. Absence is modelled by Option at the use site. -/
inductive ConfigVal (δ : Type) where
  | dict (d : δ)
  | str (s : String)
deriving DecidableEq, Repr

/-- The pre root_validator _convert_context_config
(great_expectations_data_validator_flavor.py lines 82-120). yaml.safe_load
is abstracted by parse (failing with the ParserError message), and the
Great Expectations validation performed by constructing DataContextConfig
and BaseDataContext is abstracted by geValidate (failing with the
exception message). A truthy non-dict value is parsed, validated, and
replaced by the parsed dict; parse failure and validation failure raise
ValueError; an absent, falsy or dict value passes through unchanged. -/
def convert_context_config (parse : String → Except String δ)
    (geValidate : δ → Except String Unit) :
    Option (ConfigVal δ) → Except String (Option (ConfigVal δ))
  | none => Except.ok none
  | some (ConfigVal.dict d) => Except.ok (some (ConfigVal.dict d))
  | some (ConfigVal.str s) =>
    if s = "" then Except.ok (some (ConfigVal.str s))
    else
      match parse s with
      | Except.error e =>
        Except.error
          ("Malformed context_config value. Only JSON and YAML formats are supported: "
            ++ e)
      | Except.ok d =>
        match geValidate d with
        | Except.error e =>
          Except.error ("Invalid context_config value: " ++ e)
        | Except.ok _ => Except.ok (some (ConfigVal.dict d))

end GreatExpectations

namespace Gcp

/-- The stack component roles a flavor can fill (spec §3, StackComponent). -/
inductive StackComponentRole where
  | orchestrator
  | step_operator
  | secrets_manager
  | artifact_store
  | data_validator
deriving DecidableEq, Repr

/-- A flavor declaration as the registry sees it: its role, its flavor
name, and the identity of the factory class implementing it. -/
structure FlavorDecl where
  role : StackComponentRole
  flavorName : String
  classId : String
deriving DecidableEq, Repr

/-- Modelled from the spec: the VertexOrchestratorFlavor class body lives
in zenml.integrations.gcp.flavors, outside src; its role and flavor name
follow from its class name and GCP_VERTEX_ORCHESTRATOR_FLAVOR = "vertex"
(gcp/__init__.py line 36). -/
def VertexOrchestratorFlavor : FlavorDecl :=
  ⟨StackComponentRole.orchestrator, "vertex", "VertexOrchestratorFlavor"⟩

/-- Modelled from the spec: the VertexStepOperatorFlavor class body lives
in zenml.integrations.gcp.flavors, outside src; its flavor name is
GCP_VERTEX_STEP_OPERATOR_FLAVOR = "vertex" (gcp/__init__.py line 37). -/
def VertexStepOperatorFlavor : FlavorDecl :=
  ⟨StackComponentRole.step_operator, "vertex", "VertexStepOperatorFlavor"⟩

/-- Modelled from the spec: the GCPSecretsManagerFlavor class body lives
outside src; its flavor name is GCP_SECRETS_MANAGER_FLAVOR =
"gcp_secrets_manager" (gcp/__init__.py line 35). -/
def GCPSecretsManagerFlavor : FlavorDecl :=
  ⟨StackComponentRole.secrets_manager, "gcp_secrets_manager",
    "GCPSecretsManagerFlavor"⟩

/-- Modelled from the spec: the GCPArtifactStoreFlavor class body lives
outside src; its flavor name is GCP_ARTIFACT_STORE_FLAVOR = "gcp"
(gcp/__init__.py line 34). -/
def GCPArtifactStoreFlavor : FlavorDecl :=
  ⟨StackComponentRole.artifact_store, "gcp", "GCPArtifactStoreFlavor"⟩

/-- GcpIntegration.flavors (gcp/__init__.py lines 51-70): the list of
stack component flavors declared by the GCP integration, in source
order. -/
def GcpIntegration.flavors : List FlavorDecl :=
  [VertexOrchestratorFlavor, VertexStepOperatorFlavor,
   GCPSecretsManagerFlavor, GCPArtifactStoreFlavor]

/-- The registry key of a flavor: the (role, flavor name) pair under which
the Stack Component Registry stores its factory (spec §4.4). -/
def registryKey (f : FlavorDecl) : StackComponentRole × String :=
  (f.role, f.flavorName)

/-- Resolving a role against the GCP integration registry entries: the
flavors of GcpIntegration whose role matches. -/
def resolveRole (r : StackComponentRole) : List FlavorDecl :=
  GcpIntegration.flavors.filter (fun f => f.role = r)

end Gcp

namespace ZenStore

/-- A stored team: identity plus unique name (spec §3, User/Team). -/
structure TeamModel where
  id : Nat
  name : String
deriving DecidableEq, Repr

/-- A stored role assignment: binds a role to a user or a team, optionally
scoped to a project (spec §3, RoleAssignment). -/
structure RoleAssignmentModel where
  id : Nat
  roleId : Nat
  teamId : Option Nat
  userId : Option Nat
  projectId : Option Nat
deriving DecidableEq, Repr

/-- The slice of the Metadata Store state the teams endpoints touch. -/
structure ZenStoreState where
  teams : List TeamModel
  roleAssignments : List RoleAssignmentModel
deriving DecidableEq, Repr

/-- The typed StoreError taxonomy of spec §7: surfaced to the caller,
never silently swallowed. -/
inductive StoreError where
  | notFound (msg : String)
  | conflict (msg : String)
  | referentialIntegrity (msg : String)
deriving DecidableEq, Repr

/-- Modelled from the spec: zen_store.create_team is not under src (only
its caller teams_endpoints.create_team is). Spec §4.5: team names are
unique at the store boundary, a duplicate yields a typed ConflictError;
otherwise the team is stored and returned. -/
def create_team (s : ZenStoreState) (t : TeamModel) :
    Except StoreError (ZenStoreState × TeamModel) :=
  if s.teams.any (fun u => u.name = t.name) then
    Except.error (StoreError.conflict ("team name already exists: " ++ t.name))
  else
    Except.ok ({ s with teams := s.teams ++ [t] }, t)

/-- Modelled from the spec: zen_store.get_team is not under src (only its
callers are). Spec §6: get returns the entity model or a typed not-found
error. -/
def get_team (s : ZenStoreState) (teamId : Nat) :
    Except StoreError TeamModel :=
  match s.teams.find? (fun u => u.id = teamId) with
  | none =>
    Except.error (StoreError.notFound ("no team with this id: " ++ toString teamId))
  | some t => Except.ok t

/-- Modelled from the spec: zen_store.update_team is not under src. Spec
§6: update returns the updated entity model or a typed not-found error;
it replaces the stored team carrying the same id. -/
def update_team (s : ZenStoreState) (t : TeamModel) :
    Except StoreError (ZenStoreState × TeamModel) :=
  if s.teams.any (fun u => u.id = t.id) then
    Except.ok
      ({ s with
          teams := s.teams.map (fun u => if u.id = t.id then t else u) }, t)
  else
    Except.error (StoreError.notFound ("no team with this id: " ++ toString t.id))

/-- Modelled from the spec: zen_store.delete_team is not under src. Spec
§3: deletion of a Team cascades deletion of its RoleAssignments; a missing
team yields a typed not-found error. -/
def delete_team (s : ZenStoreState) (teamId : Nat) :
    Except StoreError ZenStoreState :=
  if s.teams.any (fun u => u.id = teamId) then
    Except.ok
      { teams := s.teams.filter (fun u => u.id ≠ teamId),
        roleAssignments :=
          s.roleAssignments.filter (fun a => a.teamId ≠ some teamId) }
  else
    Except.error (StoreError.notFound ("no team with this id: " ++ toString teamId))

/-- Modelled from the spec: zen_store.list_role_assignments is not under
src. It lists the role assignments bound to the given team, restricted to
a project when one is given (teams_endpoints.get_role_assignments_for_team
docstring). -/
def list_role_assignments (s : ZenStoreState) (teamId : Option Nat)
    (projectId : Option Nat) : List RoleAssignmentModel :=
  s.roleAssignments.filter (fun a =>
    (match teamId with
     | none => true
     | some t => a.teamId = some t)
    && (match projectId with
        | none => true
        | some p => a.projectId = some p))

/-- The UpdateTeamRequest body: an optional new name, applied to the model
fetched from the store (apply_to_model). -/
structure UpdateTeamRequest where
  name : Option String
deriving DecidableEq, Repr

/-- Modelled from the spec: UpdateTeamRequest.apply_to_model is defined in
zen_server.models.user_management_models, outside src; it overwrites the
fetched team model with the fields present in the request. -/
def apply_to_model (upd : UpdateTeamRequest) (t : TeamModel) : TeamModel :=
  { t with name := upd.name.getD t.name }

/-- The update_team endpoint body (teams_endpoints.py lines 99-115): first
zen_store.get_team on the parsed id, then zen_store.update_team on the
request applied to the fetched model; a failing get short-circuits. -/
def update_team_endpoint (s : ZenStoreState) (teamId : Nat)
    (upd : UpdateTeamRequest) : Except StoreError (ZenStoreState × TeamModel) := do
  let team_in_db ← get_team s teamId
  update_team s (apply_to_model upd team_in_db)

/-- The store state after an endpoint result: an error commits nothing. -/
def resultState (s : ZenStoreState)
    (r : Except StoreError (ZenStoreState × TeamModel)) : ZenStoreState :=
  match r with
  | Except.ok (s2, _) => s2
  | Except.error _ => s

/-- A request to one of the six teams endpoints
(teams_endpoints.py lines 38-155). -/
inductive TeamsRequest where
  | listTeams
  | createTeam (t : TeamModel)
  | getTeam (teamId : Nat)
  | updateTeam (teamId : Nat) (upd : UpdateTeamRequest)
  | deleteTeam (teamId : Nat)
  | getRoleAssignmentsForTeam (teamId : Nat) (projectId : Option Nat)
deriving DecidableEq, Repr

/-- A store operation, recorded in the order the endpoint bodies execute
them. -/
inductive StoreOp where
  | opListTeams
  | opCreateTeam
  | opGetTeam
  | opUpdateTeam
  | opDeleteTeam
  | opListRoleAssignments
deriving DecidableEq, Repr

/-- The outcome of handling one HTTP request: status code, resulting store
state, and the trace of store operations executed. -/
structure EndpointResult where
  status : Nat
  state : ZenStoreState
  storeOps : List StoreOp
deriving DecidableEq, Repr

/-- Modelled from the spec: the handle_exceptions wrapper
(zen_server.utils, outside src) converts each typed StoreError into the
HTTP status the routes declare: not-found 404, conflict 409 (the routes
declare 401/404/409/422 via error_response). -/
def statusOfError : StoreError → Nat
  | StoreError.notFound _ => 404
  | StoreError.conflict _ => 409
  | StoreError.referentialIntegrity _ => 409

/-- One authorized teams endpoint invocation (teams_endpoints.py lines
38-155): each handler body runs its store calls in source order and
handle_exceptions maps a raised StoreError to its status; 200 otherwise. -/
def run_endpoint (s : ZenStoreState) (req : TeamsRequest) : EndpointResult :=
  match req with
  | TeamsRequest.listTeams =>
    { status := 200, state := s, storeOps := [StoreOp.opListTeams] }
  | TeamsRequest.createTeam t =>
    match create_team s t with
    | Except.ok (s2, _) =>
      { status := 200, state := s2, storeOps := [StoreOp.opCreateTeam] }
    | Except.error e =>
      { status := statusOfError e, state := s, storeOps := [StoreOp.opCreateTeam] }
  | TeamsRequest.getTeam i =>
    match get_team s i with
    | Except.ok _ => { status := 200, state := s, storeOps := [StoreOp.opGetTeam] }
    | Except.error e =>
      { status := statusOfError e, state := s, storeOps := [StoreOp.opGetTeam] }
  | TeamsRequest.updateTeam i upd =>
    match get_team s i with
    | Except.error e =>
      { status := statusOfError e, state := s, storeOps := [StoreOp.opGetTeam] }
    | Except.ok t =>
      match update_team s (apply_to_model upd t) with
      | Except.ok (s2, _) =>
        { status := 200, state := s2,
          storeOps := [StoreOp.opGetTeam, StoreOp.opUpdateTeam] }
      | Except.error e =>
        { status := statusOfError e, state := s,
          storeOps := [StoreOp.opGetTeam, StoreOp.opUpdateTeam] }
  | TeamsRequest.deleteTeam i =>
    match delete_team s i with
    | Except.ok s2 =>
      { status := 200, state := s2, storeOps := [StoreOp.opDeleteTeam] }
    | Except.error e =>
      { status := statusOfError e, state := s, storeOps := [StoreOp.opDeleteTeam] }
  | TeamsRequest.getRoleAssignmentsForTeam _ _ =>
    { status := 200, state := s, storeOps := [StoreOp.opListRoleAssignments] }

/-- Modelled from the spec: the router is declared with
dependencies=[Depends(authorize)] and a 401 error_response
(teams_endpoints.py lines 30-35); FastAPI evaluates the authorize
dependency before any handler body, so an unauthorized request is answered
401 and the handler — and with it every store call — never runs. -/
def handle_request (authorized : Bool) (s : ZenStoreState)
    (req : TeamsRequest) : EndpointResult :=
  if authorized then run_endpoint s req
  else { status := 401, state := s, storeOps := [] }

end ZenStore

open Whylogs GreatExpectations Gcp ZenStore

/-- C8: when a whylogs-decorated step entrypoint is invoked with a
StepContext among its arguments, the wrapper attaches a WhylogsContext —
carrying the decorator project, pipeline and tags parameters and
referencing that context object — to the whylogs field of the first
StepContext in scan order before the original entrypoint body runs, so
the body observes context.whylogs as set. -/
theorem whylogs_wrapper_attaches_context {α ρ : Type}
    (project pipeline : Option String) (tags : Option (List (String × String)))
    (func : EntryFn α ρ) (h : Heap) (args : List (Arg α))
    (kwargs : List (String × Arg α)) (i : Nat)
    (hi : firstCtxId (scannedArgs args kwargs) = some i) :
    Whylogs.wrapper project pipeline tags func h args kwargs =
      func (attachCtx project pipeline tags h (scannedArgs args kwargs))
        args kwargs
    ∧ attachCtx project pipeline tags h (scannedArgs args kwargs) i =
        some ⟨i, project, pipeline, tags⟩ := by
  constructor
  · rfl
  · unfold attachCtx
    rw [hi]
    simp

/-- Witness for C8 at a concrete call: one other argument followed by a
StepContext with id 5 and no keyword arguments. -/
theorem whylogs_wrapper_attaches_context_witness :
    attachCtx (some "proj") (some "pipe") none (fun _ => none)
      (scannedArgs [Arg.other (0 : Nat), Arg.ctxRef 5] []) 5 =
      some ⟨5, some "proj", some "pipe", none⟩ :=
  (whylogs_wrapper_attaches_context (some "proj") (some "pipe") none
    (fun _ _ _ => (0 : Nat)) (fun _ => none)
    [Arg.other (0 : Nat), Arg.ctxRef 5] [] 5 rfl).2

/-- C9: applying enable_whylogs directly to a step class is the same as
calling it with no step and applying the returned decorator, and the
installed entrypoint wrapper carries project, pipeline and tags all
None. -/
theorem enable_whylogs_direct_eq_curried {α ρ : Type}
    (S : StepClass α ρ) :
    decoratorResultApply (enable_whylogs (some S) none none none) S =
      decoratorResultApply
        (enable_whylogs (none : Option (StepClass α ρ)) none none none) S
    ∧ (decoratorResultApply (enable_whylogs (some S) none none none)
          S).entrypoint =
        whylogs_entrypoint none none none S.entrypoint :=
  ⟨rfl, rfl⟩

/-- C10: the whylogs wrapper mutates only the first StepContext in scan
order (positional arguments before keyword-argument values): every other
heap cell is untouched, the wrapped function receives exactly the original
arguments and its return value is returned unchanged, and a call with no
StepContext argument behaves identically to the unwrapped function. -/
theorem whylogs_wrapper_frame {α ρ : Type}
    (project pipeline : Option String) (tags : Option (List (String × String)))
    (func : EntryFn α ρ) (h : Heap) (args : List (Arg α))
    (kwargs : List (String × Arg α)) :
    (∀ i, firstCtxId (scannedArgs args kwargs) = some i →
      ∀ j, j ≠ i →
        attachCtx project pipeline tags h (scannedArgs args kwargs) j = h j)
    ∧ Whylogs.wrapper project pipeline tags func h args kwargs =
        func (attachCtx project pipeline tags h (scannedArgs args kwargs))
          args kwargs
    ∧ (firstCtxId (scannedArgs args kwargs) = none →
        Whylogs.wrapper project pipeline tags func h args kwargs =
          func h args kwargs) := by
  refine ⟨?_, rfl, ?_⟩
  · intro i hi j hj
    unfold attachCtx
    rw [hi]
    simp [hj]
  · intro hn
    unfold Whylogs.wrapper attachCtx
    rw [hn]

/-- Witness for C10 at concrete calls: with a StepContext of id 5 present,
the heap cell of id 3 is untouched; with no StepContext among the
arguments the wrapper output is the unwrapped call output. -/
theorem whylogs_wrapper_frame_witness :
    attachCtx (some "p") none none (fun j => some ⟨j, none, none, none⟩)
      (scannedArgs [Arg.ctxRef 5, Arg.other (7 : Nat)] []) 3 =
      some ⟨3, none, none, none⟩
    ∧ Whylogs.wrapper (some "p") none none
        (fun h2 _ _ => h2 3) (fun j => some ⟨j, none, none, none⟩)
        [Arg.other (7 : Nat)] [] =
      some ⟨3, none, none, none⟩ :=
  ⟨(whylogs_wrapper_frame (some "p") none none (fun h2 _ _ => h2 3)
      (fun j => some ⟨j, none, none, none⟩)
      [Arg.ctxRef 5, Arg.other (7 : Nat)] []).1 5 rfl 3 (by decide),
   ((whylogs_wrapper_frame (some "p") none none (fun h2 _ _ => h2 3)
      (fun j => some ⟨j, none, none, none⟩)
      [Arg.other (7 : Nat)] []).2.2 rfl).trans rfl⟩

/-- C5: constructing a GreatExpectationsDataValidatorConfig with
context_root_dir set to a non-empty path succeeds exactly when the path
exists in the file system (its absolute form coexisting with it), the
stored value on success is the absolute form of the given path, a missing
path raises a ValueError, and an unset context_root_dir is not checked. -/
theorem context_root_dir_validated (fexists : String → Bool)
    (abspath : String → String) (p : String) (hp : p ≠ "")
    (hcoh : fexists (abspath p) = fexists p) :
    ((∃ v, ensure_valid_context_root_dir fexists abspath (some p) =
        Except.ok v) ↔ fexists p = true)
    ∧ (fexists p = true →
        ensure_valid_context_root_dir fexists abspath (some p) =
          Except.ok (some (abspath p)))
    ∧ (fexists p = false →
        ∃ msg, ensure_valid_context_root_dir fexists abspath (some p) =
          Except.error msg)
    ∧ ensure_valid_context_root_dir fexists abspath none = Except.ok none := by
  have hbody : ensure_valid_context_root_dir fexists abspath (some p) =
      if fexists p then Except.ok (some (abspath p))
      else Except.error
        ("The Great Expectations context_root_dir value does not point to an existing data context path: "
          ++ abspath p) := by
    simp only [ensure_valid_context_root_dir]
    rw [if_neg hp, hcoh]
  refine ⟨?_, ?_, ?_, rfl⟩
  · constructor
    · intro hv
      by_contra hfe
      rw [Bool.not_eq_true] at hfe
      rw [hbody, hfe] at hv
      simp at hv
    · intro hfe
      rw [hbody, hfe]
      exact ⟨some (abspath p), rfl⟩
  · intro hfe
    rw [hbody, hfe]
    rfl
  · intro hfe
    rw [hbody, hfe]
    exact ⟨_, rfl⟩

/-- Witness for C5 at a concrete file system containing only "/ge" with
identity path normalisation: validating "/ge" succeeds and stores the
absolute path, while validating the absent "/missing" fails. -/
theorem context_root_dir_validated_witness :
    ensure_valid_context_root_dir (fun s => decide (s = "/ge"))
      (fun s => s) (some "/ge") = Except.ok (some "/ge")
    ∧ ∃ msg, ensure_valid_context_root_dir (fun s => decide (s = "/ge"))
        (fun s => s) (some "/missing") = Except.error msg :=
  ⟨(context_root_dir_validated (fun s => decide (s = "/ge")) (fun s => s)
      "/ge" (by decide) rfl).2.1 (by decide),
   (context_root_dir_validated (fun s => decide (s = "/ge")) (fun s => s)
      "/missing" (by decide) rfl).2.2.1 (by decide)⟩

/-- C6: for a non-empty string context_config value, a malformed
JSON/YAML value and a value failing Great Expectations validation both
raise a ValueError, a value passing both is replaced by its parsed
dictionary, and an absent or already-dict context_config passes through
unchanged. -/
theorem context_config_converted {δ : Type} (parse : String → Except String δ)
    (geValidate : δ → Except String Unit) (s : String) (hs : s ≠ "") :
    (∀ e, parse s = Except.error e →
      convert_context_config parse geValidate (some (ConfigVal.str s)) =
        Except.error
          ("Malformed context_config value. Only JSON and YAML formats are supported: "
            ++ e))
    ∧ (∀ d e, parse s = Except.ok d → geValidate d = Except.error e →
        convert_context_config parse geValidate (some (ConfigVal.str s)) =
          Except.error ("Invalid context_config value: " ++ e))
    ∧ (∀ d, parse s = Except.ok d → geValidate d = Except.ok () →
        convert_context_config parse geValidate (some (ConfigVal.str s)) =
          Except.ok (some (ConfigVal.dict d)))
    ∧ (∀ d, convert_context_config parse geValidate
          (some (ConfigVal.dict d)) = Except.ok (some (ConfigVal.dict d)))
    ∧ convert_context_config parse geValidate none = Except.ok none := by
  refine ⟨?_, ?_, ?_, fun d => rfl, rfl⟩
  · intro e he
    simp only [convert_context_config]
    rw [if_neg hs, he]
  · intro d e hd he
    simp only [convert_context_config]
    rw [if_neg hs]
    simp only [hd, he]
  · intro d hd hv
    simp only [convert_context_config]
    rw [if_neg hs]
    simp only [hd, hv]

/-- Witness for C6 with a concrete parser mapping "good" to 1 and "deep"
to 2, everything else to a parse error, and a validator rejecting 2: the
three branches are exercised at concrete inputs. -/
theorem context_config_converted_witness :
    convert_context_config
        (fun s => if s = "good" then Except.ok 1
          else if s = "deep" then Except.ok 2 else Except.error "bad yaml")
        (fun d => if d = 1 then Except.ok () else Except.error "ge reject")
        (some (ConfigVal.str "good")) = Except.ok (some (ConfigVal.dict 1))
    ∧ convert_context_config
        (fun s => if s = "good" then Except.ok 1
          else if s = "deep" then Except.ok 2 else Except.error "bad yaml")
        (fun d => if d = 1 then Except.ok () else Except.error "ge reject")
        (some (ConfigVal.str "oops")) =
      Except.error
        ("Malformed context_config value. Only JSON and YAML formats are supported: bad yaml")
    ∧ convert_context_config
        (fun s => if s = "good" then Except.ok 1
          else if s = "deep" then Except.ok 2 else Except.error "bad yaml")
        (fun d => if d = 1 then Except.ok () else Except.error "ge reject")
        (some (ConfigVal.str "deep")) =
      Except.error ("Invalid context_config value: ge reject") :=
  ⟨(context_config_converted
      (fun s => if s = "good" then Except.ok 1
        else if s = "deep" then Except.ok 2 else Except.error "bad yaml")
      (fun d => if d = 1 then Except.ok () else Except.error "ge reject")
      "good" (by decide)).2.2.1 1 rfl rfl,
   (context_config_converted
      (fun s => if s = "good" then Except.ok 1
        else if s = "deep" then Except.ok 2 else Except.error "bad yaml")
      (fun d => if d = 1 then Except.ok () else Except.error "ge reject")
      "oops" (by decide)).1 "bad yaml" rfl,
   (context_config_converted
      (fun s => if s = "good" then Except.ok 1
        else if s = "deep" then Except.ok 2 else Except.error "bad yaml")
      (fun d => if d = 1 then Except.ok () else Except.error "ge reject")
      "deep" (by decide)).2.1 2 "ge reject" rfl rfl⟩

/-- C7: GcpIntegration.flavors declares exactly four flavors — one
orchestrator, one step operator, one secrets manager, one artifact store —
the orchestrator and step operator share the flavor name "vertex" yet
occupy distinct (role, flavor name) registry keys, and resolving each of
the four roles yields exactly one flavor, all four factory classes being
distinct. -/
theorem gcp_flavors_four_distinct_roles :
    GcpIntegration.flavors.length = 4
    ∧ GcpIntegration.flavors =
        [VertexOrchestratorFlavor, VertexStepOperatorFlavor,
         GCPSecretsManagerFlavor, GCPArtifactStoreFlavor]
    ∧ VertexOrchestratorFlavor.flavorName = "vertex"
    ∧ VertexStepOperatorFlavor.flavorName = "vertex"
    ∧ (GcpIntegration.flavors.map registryKey).Nodup
    ∧ resolveRole StackComponentRole.orchestrator = [VertexOrchestratorFlavor]
    ∧ resolveRole StackComponentRole.step_operator = [VertexStepOperatorFlavor]
    ∧ resolveRole StackComponentRole.secrets_manager = [GCPSecretsManagerFlavor]
    ∧ resolveRole StackComponentRole.artifact_store = [GCPArtifactStoreFlavor]
    ∧ (GcpIntegration.flavors.map (fun f => f.classId)).Nodup := by
  decide

/-- C1: when delete_team succeeds on a team, deletion cascades to its
RoleAssignments: the resulting store holds no assignment bound to that
team, and a subsequent get_role_assignments_for_team for the same team —
with or without a project filter — returns no assignment. -/
theorem delete_team_cascades (s s2 : ZenStoreState) (teamId : Nat)
    (hdel : delete_team s teamId = Except.ok s2) :
    (∀ a ∈ s2.roleAssignments, a.teamId ≠ some teamId)
    ∧ (∀ proj, list_role_assignments s2 (some teamId) proj = []) := by
  have hmem : s.teams.any (fun u => u.id = teamId) = true := by
    by_contra hno
    rw [Bool.not_eq_true] at hno
    simp only [delete_team, hno, Bool.false_eq_true, if_false] at hdel
    exact Except.noConfusion hdel
  simp only [delete_team, hmem, if_true] at hdel
  have hras : s2.roleAssignments =
      s.roleAssignments.filter (fun a => a.teamId ≠ some teamId) := by
    injection hdel with h2
    rw [← h2]
  have hnone : ∀ a ∈ s2.roleAssignments, a.teamId ≠ some teamId := by
    intro a ha
    rw [hras] at ha
    have := (List.mem_filter.mp ha).2
    simpa using this
  refine ⟨hnone, ?_⟩
  intro proj
  simp only [list_role_assignments]
  rw [List.filter_eq_nil_iff]
  intro a ha
  have hne := hnone a ha
  cases proj with
  | none => simp [hne]
  | some p => simp [hne]

/-- Witness for C1 at a concrete store: a team with id 1 holding one role
assignment while team 2 holds another; deleting team 1 succeeds and a
subsequent role assignment listing for team 1 is empty. -/
theorem delete_team_cascades_witness :
    list_role_assignments
      (⟨[], [⟨11, 3, some 2, none, none⟩]⟩ : ZenStoreState) (some 1) none = [] :=
  (delete_team_cascades
    ⟨[⟨1, "team one"⟩], [⟨10, 3, some 1, none, none⟩, ⟨11, 3, some 2, none, none⟩]⟩
    ⟨[], [⟨11, 3, some 2, none, none⟩]⟩ 1 rfl).2 none

/-- C2: when the store already contains a team named n, create_team for
another team named n creates no second team — the store is left unchanged
— and returns the typed conflict error that the create route surfaces as
its declared 409 response. -/
theorem create_team_conflict (s : ZenStoreState) (t : TeamModel)
    (hex : ∃ u ∈ s.teams, u.name = t.name) :
    create_team s t =
      Except.error
        (StoreError.conflict ("team name already exists: " ++ t.name))
    ∧ (run_endpoint s (TeamsRequest.createTeam t)).status = 409
    ∧ (run_endpoint s (TeamsRequest.createTeam t)).state = s := by
  have hany : s.teams.any (fun u => u.name = t.name) = true := by
    rw [List.any_eq_true]
    obtain ⟨u, hu, hn⟩ := hex
    exact ⟨u, hu, by simp [hn]⟩
  have hc : create_team s t =
      Except.error
        (StoreError.conflict ("team name already exists: " ++ t.name)) := by
    simp only [create_team, hany, if_true]
  refine ⟨hc, ?_, ?_⟩
  · simp only [run_endpoint, hc]
    rfl
  · simp only [run_endpoint, hc]

/-- Witness for C2 at a concrete store holding a team named "dup": a
create request for a second team named "dup" yields the conflict error
and the endpoint answers 409 with the store unchanged. -/
theorem create_team_conflict_witness :
    create_team (⟨[⟨1, "dup"⟩], []⟩ : ZenStoreState) ⟨2, "dup"⟩ =
      Except.error
        (StoreError.conflict ("team name already exists: " ++ "dup"))
    ∧ (run_endpoint (⟨[⟨1, "dup"⟩], []⟩ : ZenStoreState)
        (TeamsRequest.createTeam ⟨2, "dup"⟩)).status = 409 :=
  ⟨(create_team_conflict ⟨[⟨1, "dup"⟩], []⟩ ⟨2, "dup"⟩ (by decide)).1,
   (create_team_conflict ⟨[⟨1, "dup"⟩], []⟩ ⟨2, "dup"⟩ (by decide)).2.1⟩

/-- C3: for a team identifier matching no stored team, the initial
get_team of the update endpoint fails with a typed not-found error that
is surfaced to the caller (a 404 response), the store is left unchanged,
and no update store call is ever executed. -/
theorem update_team_missing_not_found (s : ZenStoreState) (i : Nat)
    (upd : UpdateTeamRequest) (hno : ∀ u ∈ s.teams, u.id ≠ i) :
    get_team s i =
      Except.error (StoreError.notFound ("no team with this id: " ++ toString i))
    ∧ update_team_endpoint s i upd =
        Except.error (StoreError.notFound ("no team with this id: " ++ toString i))
    ∧ resultState s (update_team_endpoint s i upd) = s
    ∧ run_endpoint s (TeamsRequest.updateTeam i upd) =
        { status := 404, state := s, storeOps := [StoreOp.opGetTeam] } := by
  have hf : s.teams.find? (fun u => u.id = i) = none := by
    rw [List.find?_eq_none]
    intro u hu
    simpa using hno u hu
  have hg : get_team s i =
      Except.error (StoreError.notFound ("no team with this id: " ++ toString i)) := by
    simp only [get_team, hf]
  have hu : update_team_endpoint s i upd =
      Except.error (StoreError.notFound ("no team with this id: " ++ toString i)) := by
    simp only [update_team_endpoint, hg]
    rfl
  refine ⟨hg, hu, ?_, ?_⟩
  · simp only [resultState, hu]
  · simp only [run_endpoint, hg]
    rfl

/-- Witness for C3 at a concrete store holding only team id 1: updating
team id 2 answers 404, leaves the store unchanged, and runs only the
get_team store call. -/
theorem update_team_missing_not_found_witness :
    run_endpoint (⟨[⟨1, "a"⟩], []⟩ : ZenStoreState)
        (TeamsRequest.updateTeam 2 ⟨some "b"⟩) =
      { status := 404, state := ⟨[⟨1, "a"⟩], []⟩,
        storeOps := [StoreOp.opGetTeam] } :=
  (update_team_missing_not_found ⟨[⟨1, "a"⟩], []⟩ 2 ⟨some "b"⟩
    (by decide)).2.2.2

/-- C4: every teams endpoint runs behind the authorize router dependency:
an unauthorized request is answered 401 with the store untouched and an
empty store operation trace, and the handler body with its store calls
runs only when authorization has been granted. -/
theorem teams_endpoints_authorize_first (s : ZenStoreState)
    (req : TeamsRequest) :
    handle_request false s req = { status := 401, state := s, storeOps := [] }
    ∧ handle_request true s req = run_endpoint s req :=
  ⟨rfl, rfl⟩
